import Mathlib

set_option maxHeartbeats 1000000

/-
  Verification development for the EnigmaCode platform.

  Shallow embedding of the components the specification describes:
  - backend GET /validate route (backend/routes/webhooks.js)
  - the credential ("Key") document methods (isExpired / isValid /
    recordActivation) from the mongoose key schema
  - the Lua obfuscation engine (obfuscation-engine/obfuscator.js)
  - the loader generator (client-loader/loader-generator.js)
  - the generated loader's validateAndExecute state machine
    (client-loader/loader-template.lua)

  Machine integers are modelled as Nat (JS numbers stay far below 2^53 in
  every computation embedded here); byte strings as List Nat; timestamps as
  an explicit `now : Nat` parameter.  Calls to crypto primitives
  (crypto.randomBytes, AES, sha256, md5) are impure or out of scope, so the
  values they return are threaded in as explicit oracle inputs; everything
  around them is embedded faithfully from the source.
-/

namespace EnigmaCode

/-- JavaScript truthiness of an optional string (undefined/null and the
empty string are falsy; any other string is truthy). -/
def jsTruthy : Option String → Bool
  | none => false
  | some s => !(s == "")

/-! ## Credential ("Key") model — mongoose keySchema -/

/-- One entry of `usage.activationHistory` in the key schema. -/
structure ActEntry where
  timestamp : Nat
  userId : Option String
  ip : String
  userAgent : Option String
  success : Bool
  errorCode : Option String
deriving DecidableEq

/-- A credential document (keySchema).  The nested `usage`, `restrictions`
and `banInfo` sub-documents are flattened into prefixed fields. -/
structure KeyRec where
  id : Nat
  keyString : String
  project : Nat
  owner : Nat
  type : String
  expiresAt : Option Nat
  linkedUserId : Option String
  status : String
  totalActivations : Nat
  lastUsed : Option Nat
  lastUserAgent : Option String
  lastIP : Option String
  activationHistory : List ActEntry
  maxActivations : Option Nat
  allowedIPs : List String
  allowedUserIds : List String
  banIsBanned : Bool
  banBannedAt : Option Nat
  banReason : Option String
deriving DecidableEq

/-- keySchema.methods.isExpired: `if (!this.expiresAt) return false;
return new Date() > this.expiresAt;` -/
def keyIsExpired (now : Nat) (k : KeyRec) : Bool :=
  match k.expiresAt with
  | none => false
  | some t => decide (now > t)

/-- keySchema.methods.isValid.  Returns the boolean result together with
the (possibly mutated) key: on a lazily detected expiry the method sets
`this.status = 'expired'` before returning false. -/
def keyIsValid (now : Nat) (k : KeyRec) : Bool × KeyRec :=
  if k.status != "active" then (false, k)
  else if k.banIsBanned then (false, k)
  else if keyIsExpired now k then (false, { k with status := "expired" })
  else (true, k)

/-- keySchema.methods.recordActivation: increments
`usage.totalActivations`, refreshes last-used metadata, appends a history
entry, and keeps only the last 100 history records (`slice(-100)`). -/
def recordActivation (now : Nat) (userId : Option String) (ip : String)
    (userAgent : Option String) (success : Bool) (errorCode : Option String)
    (k : KeyRec) : KeyRec :=
  let hist := k.activationHistory ++
    [{ timestamp := now, userId := userId, ip := ip, userAgent := userAgent,
       success := success, errorCode := errorCode }]
  { k with
    totalActivations := k.totalActivations + 1
    lastUsed := some now
    lastUserAgent := userAgent
    lastIP := some ip
    activationHistory := if hist.length > 100 then hist.drop (hist.length - 100) else hist }

/-! ## Project model and the database -/

/-- The slice of the Project document the /validate route touches. -/
structure ProjectRec where
  oid : Nat
  projectId : String
  name : String
  isActive : Bool
  obfuscatedCode : String
  statsTotalActivations : Nat
  statsLastActivation : Option Nat
deriving DecidableEq

/-- The persistent store consumed by the route (Project and Key
collections). -/
structure DB where
  projects : List ProjectRec
  keys : List KeyRec
deriving DecidableEq

/-- `Project.findOne({ projectId })`. -/
def findProject (db : DB) (pid : String) : Option ProjectRec :=
  db.projects.find? (fun p => p.projectId == pid)

/-- `Key.findOne({ keyString: userKey, project: project._id })`. -/
def findKey (db : DB) (userKey : String) (poid : Nat) : Option KeyRec :=
  db.keys.find? (fun k => k.keyString == userKey && k.project == poid)

/-- `key.save()`: write the (unique-id) key document back. -/
def saveKey (db : DB) (k : KeyRec) : DB :=
  { db with keys := db.keys.map (fun x => if x.id == k.id then k else x) }

/-- `project.save()`. -/
def saveProject (db : DB) (p : ProjectRec) : DB :=
  { db with projects := db.projects.map (fun x => if x.oid == p.oid then p else x) }

/-- `Key.updateMany({ linkedUserId: userId }, { status: 'banned', ... })`.
Only `status` has a schema path among the written fields (the update also
names 'ban.reason', 'ban.bannedAt', 'ban.bannedBy', which do not exist in
the schema — the schema nests them under `banInfo` — so strict-mode
mongoose drops them). -/
def banKeysOfUser (userId : String) (db : DB) : DB :=
  { db with keys := db.keys.map (fun k =>
      if k.linkedUserId == some userId then { k with status := "banned" } else k) }

/-! ## The /validate route -/

/-- The request headers the route reads, plus req.ip. -/
structure ValReq where
  projectId : Option String
  userKey : Option String
  userId : Option String
  userAgent : Option String
  ip : String
deriving DecidableEq

/-- Audit events emitted on the way out: Analytics.logEvent calls and
webhookService.sendNotification calls. -/
inductive Event where
  | analytics (eventType : String) (errorCode : Option String)
  | webhook (notifType : String)
deriving DecidableEq

/-- The JSON response: HTTP status, `valid`, optional `error`, optional
`code` payload and optional `keyInfo`. -/
structure KeyInfo where
  type : String
  expiresAt : Option Nat
  activations : Nat
deriving DecidableEq

structure ValResp where
  status : Nat
  valid : Bool
  error : Option String
  code : Option String
  keyInfo : Option KeyInfo
deriving DecidableEq

/-- Every rejection in the route has the shape
`res.status(s).json({ valid: false, error: msg })`. -/
def errResp (status : Nat) (msg : String) : ValResp :=
  { status := status, valid := false, error := some msg, code := none, keyInfo := none }

/-- The catch-all branch: `res.status(500).json({ valid: false, error:
'Validation failed' })`. -/
def internalErrorResp : ValResp := errResp 500 "Validation failed"

structure ValOut where
  resp : ValResp
  db : DB
  events : List Event
deriving DecidableEq

/-- `key.linkedUserId && key.linkedUserId !== userId` (userId may be
undefined; a null or empty linkedUserId is falsy and skips the check). -/
def linkedUserMismatch (k : KeyRec) (userId : Option String) : Bool :=
  match k.linkedUserId with
  | none => false
  | some l => !(l == "") && !(userId == some l)

/-- `key.restrictions.maxActivations && key.usage.totalActivations >=
key.restrictions.maxActivations` (null or 0 is falsy: unlimited). -/
def maxActivationsReached (k : KeyRec) : Bool :=
  match k.maxActivations with
  | none => false
  | some m => !(m == 0) && decide (k.totalActivations ≥ m)

/-- The GET /validate handler of backend/routes/webhooks.js, embedded
branch for branch.  Output is the response, the updated store, and the
audit events emitted. -/
def validate (now : Nat) (req : ValReq) (db : DB) : ValOut :=
  if !(jsTruthy req.projectId) || !(jsTruthy req.userKey) then
    { resp := errResp 400 "Missing required headers", db := db,
      events := [Event.analytics "error" (some "MISSING_HEADERS")] }
  else
    let pid := req.projectId.getD ""
    let userKey := req.userKey.getD ""
    match findProject db pid with
    | none =>
      { resp := errResp 404 "Project not found", db := db,
        events := [Event.analytics "error" (some "PROJECT_NOT_FOUND")] }
    | some proj =>
      if !proj.isActive then
        { resp := errResp 404 "Project not found", db := db,
          events := [Event.analytics "error" (some "PROJECT_NOT_FOUND")] }
      else
        match findKey db userKey proj.oid with
        | none =>
          { resp := errResp 401 "Invalid key", db := db,
            events := [Event.analytics "error" (some "KEY_NOT_FOUND")] }
        | some key =>
          match keyIsValid now key with
          | (false, k1) =>
            let errorCode := if k1.status == "banned" then "KEY_BANNED"
              else if keyIsExpired now k1 then "KEY_EXPIRED" else "KEY_INVALID"
            let errorMessage := if k1.status == "banned" then "Key is banned"
              else if keyIsExpired now k1 then "Key has expired" else "Key is invalid"
            let k2 := recordActivation now req.userId req.ip req.userAgent false (some errorCode) k1
            { resp := errResp 401 errorMessage, db := saveKey db k2,
              events := [Event.analytics "error" (some errorCode)] }
          | (true, k1) =>
            if linkedUserMismatch k1 req.userId then
              let k2 := recordActivation now req.userId req.ip req.userAgent false (some "USER_ID_MISMATCH") k1
              { resp := errResp 401 "Key not authorized for this user", db := saveKey db k2,
                events := [Event.analytics "error" (some "USER_ID_MISMATCH")] }
            else if !(k1.allowedIPs.isEmpty) && !(k1.allowedIPs.contains req.ip)
                && (userKey == "TAMPER_DETECTED") then
              let db1 := if jsTruthy req.userId then banKeysOfUser (req.userId.getD "") db else db
              { resp := errResp 401 "Access denied", db := db1,
                events := [Event.analytics "tamper" none, Event.webhook "tamper_detected"] }
            else if maxActivationsReached k1 then
              let k2 := recordActivation now req.userId req.ip req.userAgent false (some "MAX_ACTIVATIONS_REACHED") k1
              { resp := errResp 401 "Activation limit reached", db := saveKey db k2,
                events := [Event.analytics "error" (some "MAX_ACTIVATIONS_REACHED")] }
            else
              let k2 := recordActivation now req.userId req.ip req.userAgent true none k1
              let db1 := saveKey db k2
              let db2 := saveProject db1 ({ proj with
                statsTotalActivations := proj.statsTotalActivations + 1,
                statsLastActivation := some now })
              let info : KeyInfo :=
                { type := k2.type, expiresAt := k2.expiresAt, activations := k2.totalActivations }
              { resp := { status := 200, valid := true, error := none,
                          code := some proj.obfuscatedCode, keyInfo := some info },
                db := db2,
                events := [Event.analytics "activation" none] }

/-! ## Generic scanning helpers (JS regex behaviour on string literals) -/

/-- Does `pat` occur at the head of `l`? -/
def listStartsWith : List Char → List Char → Bool
  | [], _ => true
  | _ :: _, [] => false
  | p :: ps, c :: cs => p == c && listStartsWith ps cs

/-- Does `pat` occur anywhere in `l`? -/
def containsSub (pat : List Char) : List Char → Bool
  | [] => listStartsWith pat []
  | l@(_ :: rest) => listStartsWith pat l || containsSub pat rest

/-- Attempt to match the remainder of a quoted literal opened with quote
character `q`, mirroring the JS regexes `"([^"\\]|\\.)*"` and
`'([^'\\]|\\.)*'`: an escape is a backslash followed by any non-newline
character (`.` does not match a newline), and an unterminated literal is
no match at all.  Returns the content (escapes kept verbatim, as
`match[0].slice(1, -1)` does) and the text after the closing quote. -/
def scanLit (q : Char) : List Char → Option (List Char × List Char)
  | [] => none
  | c :: rest =>
    if c == q then some ([], rest)
    else if c == '\\' then
      match rest with
      | [] => none
      | d :: rest' =>
        if d == '\n' then none
        else
          match scanLit q rest' with
          | none => none
          | some (cs, r) => some (c :: d :: cs, r)
    else
      match scanLit q rest with
      | none => none
      | some (cs, r) => some (c :: cs, r)

/-- One pass of a global string-literal regex replace: non-overlapping,
left to right, the replacement text is not rescanned (JS
`String.replace` with a `/g` regex).  `repl` receives the quote character
and the literal's content.  Fuel decreases once per step; callers pass the
input length, which always suffices. -/
def rewriteStringsGo (quotes : List Char) (repl : Char → List Char → List Char) :
    Nat → List Char → List Char
  | 0, l => l
  | _ + 1, [] => []
  | fuel + 1, c :: rest =>
    if quotes.contains c then
      match scanLit c rest with
      | some (content, rest') => repl c content ++ rewriteStringsGo quotes repl fuel rest'
      | none => c :: rewriteStringsGo quotes repl fuel rest
    else c :: rewriteStringsGo quotes repl fuel rest

def rewriteStrings (quotes : List Char) (repl : Char → List Char → List Char)
    (s : List Char) : List Char :=
  rewriteStringsGo quotes repl s.length s

/-! ## LuaObfuscator (obfuscation-engine/obfuscator.js) -/

/-- The recognized obfuscation options, with the constructor's defaults
(`stringEncryption`, `variableRenaming`, `antiDebugging`,
`integrityChecks` default true; the premium flags default false;
`tier` defaults to "standard"). -/
structure ObfOptions where
  tier : String := "standard"
  stringEncryption : Bool := true
  variableRenaming : Bool := true
  antiDebugging : Bool := true
  controlFlowFlattening : Bool := false
  bytecodeEncryption : Bool := false
  virtualization : Bool := false
  integrityChecks : Bool := true
deriving DecidableEq

/-- The transform-stage methods of LuaObfuscator, as explicit function
values: each stage consumes the current source text and either returns the
rewritten text or raises (JS exception, modelled as `Except.error`).  The
stage bodies are impure (crypto.randomBytes, Math.random, Date), so an
instance of this structure fixes one draw of their randomness; the
`obfuscate` driver below embeds exactly the dispatch logic of the source,
which contains no try/catch around any stage. -/
structure StageImpls where
  encryptStrings : String → Except String String
  renameVariables : String → Except String String
  addAntiDebugging : String → Except String String
  flattenControlFlow : String → Except String String
  encryptBytecode : String → Except String String
  virtualize : String → Except String String
  addIntegrityChecks : String → Except String String
  wrapObfuscatedCode : String → String

/-- LuaObfuscator.obfuscate: applies the enabled stages in the fixed
source order (string encryption, variable renaming, anti-debugging,
then — only when tier is premium — control-flow flattening, bytecode
encryption, virtualization, then integrity checks), and finally wraps the
result.  A stage exception propagates: there is no catch anywhere in the
method. -/
def obfuscate (o : ObfOptions) (st : StageImpls) (sourceCode : String) :
    Except String String := do
  let c1 ← if o.stringEncryption then st.encryptStrings sourceCode else pure sourceCode
  let c2 ← if o.variableRenaming then st.renameVariables c1 else pure c1
  let c3 ← if o.antiDebugging then st.addAntiDebugging c2 else pure c2
  let c4 ←
    if o.tier == "premium" then do
      let p1 ← if o.controlFlowFlattening then st.flattenControlFlow c3 else pure c3
      let p2 ← if o.bytecodeEncryption then st.encryptBytecode p1 else pure p1
      if o.virtualization then st.virtualize p2 else pure p2
    else pure c3
  let c5 ← if o.integrityChecks then st.addIntegrityChecks c4 else pure c4
  pure (st.wrapObfuscatedCode c5)

/-- LuaObfuscator.encryptStrings, body: every literal matched by
`/"([^"\\]|\\.)*"|'([^'\\]|\\.)*'/g` is replaced (right to left over the
match list, which equals a simultaneous replacement) by
`_G._EC_decrypt("<encrypted>")`.  `enc` is `this.encryptString` with its
randomness fixed.  There is no length or allowlist filter of any kind. -/
def encryptStringsCore (enc : String → String) (code : String) : String :=
  String.mk (rewriteStrings ['"', Char.ofNat 39]
    (fun _ content =>
      ("_G._EC_decrypt(\"".data) ++ (enc (String.mk content)).data ++ ("\")".data))
    code.data)

/-- LuaObfuscator.generateDecryptFunction returns one fixed Lua source
string (the `_G._EC_decrypt` definition).  Its exact text plays no role in
any claim here — only the fact that it is prepended once — so it is kept
as an abbreviated constant. -/
def generateDecryptFunction : String :=
  "\n-- String decryption function\n_G._EC_decrypt = function(encrypted) ... end"

/-- LuaObfuscator.encryptStrings: the rewritten unit with the decrypt
function definition prepended once. -/
def encryptStrings (enc : String → String) (code : String) : String :=
  generateDecryptFunction ++ "\n" ++ encryptStringsCore enc code

/-! ## The emitted string cipher, on byte strings (claim C2)

`encryptString` AES-256-CBC-encrypts the literal under a fresh random
16-byte password and packages `hex(key) ++ ":" ++ hex(iv) ++ ":" ++
hex(ciphertext)` (then base64, which the emitted Lua code undoes first).
The emitted decoder splits the decoded text on ":" and XORs the bytes of
the third part — the *hex text* of the ciphertext — against the bytes of
the first part — the *hex text* of the key.  Both sides are modelled on
byte strings (`List Nat`); the AES ciphertext itself is impure
(random key/iv), so it is an oracle input `ct`. -/

/-- ASCII code of a lowercase hex digit (Buffer.toString('hex')). -/
def hexDigitChar (n : Nat) : Nat := if n < 10 then 48 + n else 87 + n

/-- Lowercase hex text of a byte string, as ASCII codes. -/
def toHexBytes : List Nat → List Nat
  | [] => []
  | b :: rest => hexDigitChar (b / 16) :: hexDigitChar (b % 16) :: toHexBytes rest

/-- The `combined` value built by encryptString before base64:
`key.toString('hex') + ':' + iv.toString('hex') + ':' + encrypted`. -/
def encryptStringCombined (key iv ct : List Nat) : List Nat :=
  toHexBytes key ++ 58 :: (toHexBytes iv ++ 58 :: toHexBytes ct)

/-- Lua `decoded:gmatch("[^:]+")` collected into a list: the maximal
nonempty runs of non-colon bytes. -/
def splitColonGo : Nat → List Nat → List (List Nat)
  | 0, _ => []
  | _ + 1, [] => []
  | fuel + 1, b :: rest =>
    if b == 58 then splitColonGo fuel rest
    else (b :: rest.takeWhile (fun x => !(x == 58))) ::
      splitColonGo fuel (rest.dropWhile (fun x => !(x == 58)))

def splitColon (l : List Nat) : List (List Nat) := splitColonGo l.length l

/-- The XOR loop of the emitted decoder: byte i of the input against byte
`(i mod #key)` of the key (`keyIndex` starts at 1 and advances once per
character). -/
def xorWithKeyGo (key : List Nat) (i : Nat) : List Nat → List Nat
  | [] => []
  | b :: rest => Nat.xor b (key.getD (i % key.length) 0) :: xorWithKeyGo key (i + 1) rest

def xorWithKey (c key : List Nat) : List Nat := xorWithKeyGo key 0 c

/-- The emitted `_G._EC_decrypt`, after its base64 decode: split the
decoded bytes on ":", take parts[1] as the key and parts[3] as the data,
and XOR-decode.  Fewer than three parts makes the Lua code index nil
(a runtime error), modelled as `none`. -/
def emittedDecrypt (decoded : List Nat) : Option (List Nat) :=
  match splitColon decoded with
  | k :: _ :: c :: _ => some (xorWithKey c k)
  | _ => none

/-- The bytes of a (pure-ASCII) string. -/
def strBytes (s : String) : List Nat := s.data.map Char.toNat

/-! ## LoaderGenerator (client-loader/loader-generator.js) -/

/-- Lowercase the ASCII letters of a char list (for the /json/i test). -/
def toLowerAscii (l : List Char) : List Char :=
  l.map (fun c => if c.isUpper then Char.ofNat (c.toNat + 32) else c)

/-- LoaderGenerator.shouldSkipString: the skip patterns
`^https?:\/\/`, `^[A-Z_]+$`, `Service$`, `^X-`, `/json/i`. -/
def shouldSkipString (s : String) : Bool :=
  s.startsWith "http://" || s.startsWith "https://"
  || (!s.data.isEmpty && s.data.all (fun c => c.isUpper || c == '_'))
  || s.endsWith "Service"
  || s.startsWith "X-"
  || containsSub ("json".data) (toLowerAscii s.data)

/-- The char-code rewriting of one literal's content:
`string.char(c1, c2, ...)`. -/
def charCodesCall (content : List Char) : List Char :=
  ("string.char(".data)
  ++ (String.intercalate ", " (content.map (fun c => Nat.repr c.toNat))).data
  ++ (")".data)

/-- The per-literal decision of LoaderGenerator.obfuscateStrings: keep the
match verbatim when the content is shorter than 3 characters or matches
the skip list, otherwise rewrite to character codes. -/
def obfuscateStringsRepl (content : List Char) : List Char :=
  if content.length < 3 || shouldSkipString (String.mk content) then
    '"' :: (content ++ ['"'])
  else charCodesCall content

/-- LoaderGenerator.obfuscateStrings: a global replace over
`/"([^"\\]|\\.)*"/g` (double-quoted literals only). -/
def obfuscateStrings (code : String) : String :=
  String.mk (rewriteStrings ['"'] (fun _ content => obfuscateStringsRepl content) code.data)

/-- JS `str.replace(new RegExp(pat, 'g'), repl)` for a pattern with no
regex metacharacters in effect: all non-overlapping occurrences, left to
right, replacement not rescanned. -/
def replaceAllSub (pat repl : List Char) : Nat → List Char → List Char
  | 0, l => l
  | _ + 1, [] => []
  | f + 1, l@(c :: rest) =>
    if !pat.isEmpty && listStartsWith pat l then
      repl ++ replaceAllSub pat repl f (l.drop pat.length)
    else c :: replaceAllSub pat repl f rest

def replaceAll (s pat repl : String) : String :=
  String.mk (replaceAllSub pat.data repl.data s.data.length s.data)

/-- JS `str.replace(pat, repl)` with a plain-string pattern: first
occurrence only. -/
def replaceFirstSub (pat repl : List Char) : List Char → List Char
  | [] => []
  | l@(c :: rest) =>
    if !pat.isEmpty && listStartsWith pat l then repl ++ l.drop pat.length
    else c :: replaceFirstSub pat repl rest

def replaceFirst (s pat repl : String) : String :=
  String.mk (replaceFirstSub pat.data repl.data s.data)

/-- JS `str.indexOf(pat)` (as an Option instead of -1). -/
def indexOfSub (pat : List Char) : List Char → Option Nat
  | [] => if pat.isEmpty then some 0 else none
  | l@(_ :: rest) =>
    if listStartsWith pat l then some 0
    else
      match indexOfSub pat rest with
      | some i => some (i + 1)
      | none => none

/-- `s.substring(0, i) + ins + s.substring(i)` at the position of
`marker`, or `s` unchanged when the marker is absent (the generator's
insertion idiom). -/
def insertBeforeMarker (marker ins s : String) : String :=
  match indexOfSub marker.data s.data with
  | none => s
  | some i => String.mk (s.data.take i ++ ins.data ++ s.data.drop i)

/-- LoaderGenerator.generateIntegrityHash: the additive positional
checksum `sum(code.charCodeAt(i) * (i+1)) % 999999`, rendered in
decimal. -/
def generateIntegrityHash (code : String) : String :=
  Nat.repr ((code.data.enum.foldl (fun acc p => acc + p.2.toNat * (p.1 + 1)) 0) % 999999)

/-- One base-36 digit as JS Number.toString(36) produces it. -/
def base36Digit (n : Nat) : Char :=
  if n < 10 then Char.ofNat (48 + n) else Char.ofNat (87 + n)

def natToBase36Go : Nat → Nat → List Char
  | 0, _ => []
  | f + 1, n =>
    if n < 36 then [base36Digit n]
    else natToBase36Go f (n / 36) ++ [base36Digit (n % 36)]

/-- JS `n.toString(36)` for a natural number. -/
def natToBase36 (n : Nat) : List Char := natToBase36Go (n + 1) n

/-- JS \s for the characters occurring in the loader template. -/
def isJsSpace (c : Char) : Bool := c == ' ' || c == '\t' || c == '\n' || c == '\r'

def isIdentStart (c : Char) : Bool := c.isAlpha || c == '_'

def isIdentChar (c : Char) : Bool := c.isAlpha || c.isDigit || c == '_'

/-- The scan of `/local\s+([a-zA-Z_][a-zA-Z0-9_]*)/g` over the loader
text: every matched identifier, in match order (the regex has no word
boundary on `local`, faithfully so here). -/
def collectLocalVarsGo : Nat → List Char → List (List Char)
  | 0, _ => []
  | _ + 1, [] => []
  | f + 1, l@(_ :: rest) =>
    if listStartsWith ("local".data) l then
      let after := l.drop 5
      let ws := after.takeWhile isJsSpace
      let after2 := after.drop ws.length
      match ws, after2 with
      | _ :: _, d :: body =>
        if isIdentStart d then
          let identTail := body.takeWhile isIdentChar
          (d :: identTail) :: collectLocalVarsGo f (body.drop identTail.length)
        else collectLocalVarsGo f rest
      | _, _ => collectLocalVarsGo f rest
    else collectLocalVarsGo f rest

/-- The reserved-word list of LoaderGenerator.isReservedWord (the Lua
keywords, common globals, and the Roblox service names). -/
def isReservedWordLoader (w : String) : Bool :=
  ["and", "break", "do", "else", "elseif", "end", "false", "for",
   "function", "if", "in", "local", "nil", "not", "or", "repeat",
   "return", "then", "true", "until", "while", "print", "pairs",
   "ipairs", "next", "type", "getmetatable", "setmetatable",
   "HttpService", "Players", "RunService", "game", "workspace"].contains w

/-- The varMap construction: first occurrence wins, reserved words are
skipped, generated names are `_L` plus a base-36 counter. -/
def buildVarMapGo : List (List Char) → List (List Char × List Char) → Nat →
    List (List Char × List Char)
  | [], acc, _ => acc.reverse
  | n :: rest, acc, counter =>
    if isReservedWordLoader (String.mk n) || acc.any (fun p => p.1 == n) then
      buildVarMapGo rest acc counter
    else buildVarMapGo rest ((n, "_L".data ++ natToBase36 counter) :: acc) (counter + 1)

def buildVarMap (names : List (List Char)) : List (List Char × List Char) :=
  buildVarMapGo names [] 0

/-- JS `str.replace(new RegExp('\\b' + old + '\\b', 'g'), new)` for an
identifier `old` (every character of `old` is a word character).  `prev`
is the character before the current scan position in the original
string. -/
def wbReplaceGo (old nw : List Char) (prev : Option Char) : Nat → List Char → List Char
  | 0, l => l
  | _ + 1, [] => []
  | f + 1, l@(c :: rest) =>
    let boundaryBefore := match prev with | none => true | some p => !isIdentChar p
    if boundaryBefore && listStartsWith old l then
      let after := l.drop old.length
      let boundaryAfter := match after.head? with | none => true | some a => !isIdentChar a
      if boundaryAfter then nw ++ wbReplaceGo old nw old.getLast? f after
      else c :: wbReplaceGo old nw (some c) f rest
    else c :: wbReplaceGo old nw (some c) f rest

def wbReplaceAll (old nw l : List Char) : List Char :=
  wbReplaceGo old nw none l.length l

/-- The three decoy function definitions of addDummyCode. -/
def dummyFunctions : List String :=
  ["local function _dummy1() local x = math.random(1, 100); return x > 50 end",
   "local function _dummy2() for i = 1, 10 do math.sin(i) end end",
   "local function _dummy3() local t = \x7b\x7d; t[1] = \"dummy\"; return #t end"]

/-- The three decoy call statements of addDummyCode. -/
def dummyCalls : List String :=
  ["if _dummy1() then _dummy2() end",
   "local _temp = _dummy3()",
   "if math.random() > 0.5 then _dummy1() end"]

/-- JS `code.split('\n')`. -/
def splitNewlines : Nat → List Char → List (List Char)
  | 0, l => [l]
  | f + 1, l =>
    let pre := l.takeWhile (fun c => !(c == '\n'))
    match l.drop pre.length with
    | [] => [pre]
    | _ :: tail => pre :: splitNewlines f tail

def joinNewlines : List (List Char) → List Char
  | [] => []
  | [x] => x
  | x :: rest => x ++ '\n' :: joinNewlines rest

/-- JS `arr.splice(i, 0, x)` (appends when i is past the end, as JS
does). -/
def insertAt (i : Nat) (x : α) (l : List α) : List α := l.take i ++ x :: l.drop i

/-- LoaderGenerator.addDummyCode: the decoy functions go in front of
`local CONFIG`; the decoy calls are spliced at 25%/50%/75% of the line
count (offsets computed once, each splice checked against the current
length). -/
def addDummyCode (code : String) : String :=
  let withFns :=
    match indexOfSub ("local CONFIG".data) code.data with
    | none => code.data
    | some i => code.data.take i
        ++ (String.intercalate "\n" dummyFunctions).data ++ ("\n\n".data)
        ++ code.data.drop i
  let lines := splitNewlines withFns.length withFns
  let n := lines.length
  let p0 := n / 4
  let p1 := n / 2
  let p2 := (n * 3) / 4
  let l1 := if p0 < lines.length then insertAt (p0 + 0) (dummyCalls.getD 0 "").data lines else lines
  let l2 := if p1 < l1.length then insertAt (p1 + 1) (dummyCalls.getD 1 "").data l1 else l1
  let l3 := if p2 < l2.length then insertAt (p2 + 2) (dummyCalls.getD 2 "").data l2 else l2
  String.mk (joinNewlines l3)

/-- LoaderGenerator.obfuscateLoader: rename the `local` identifiers found
in the input (deterministic `_L<base36>` names), rewrite double-quoted
literals, add decoy code.  (Its config argument is unused in the
source.) -/
def obfuscateLoader (loader : String) : String :=
  let varMap := buildVarMap (collectLocalVarsGo loader.data.length loader.data)
  let renamed := String.mk (varMap.foldl (fun acc p => wbReplaceAll p.1 p.2 acc) loader.data)
  addDummyCode (obfuscateStrings renamed)

/-- The project fields the generator reads. -/
structure ProjectIn where
  projectId : String
  name : String
  createdAt : String
  settingsIntegrityChecks : Bool
  settingsTier : String
deriving DecidableEq

structure GenOptions where
  /-- `options.obfuscateLoader !== false`. -/
  obfuscateLoader : Bool
deriving DecidableEq

/-- The impure inputs of the generator: process.env.API_BASE_URL (with
its fallback already applied), the two crypto.randomBytes draws as hex,
the sha256-prefix payload hash, and the md5-prefix project hash.
Everything else in the generator is deterministic. -/
structure CryptoOracle where
  apiBaseUrl : String
  obfuscationKeyHex : String
  antiTamperKeyHex : String
  payloadHashPrefix : String
  projectHashHex : String
deriving DecidableEq

structure LoaderConfig where
  apiBaseUrl : String
  projectId : String
  integrityHash : String
  obfuscationKey : String
  antiTamperKey : String
  loaderHash : String
deriving DecidableEq

/-- LoaderGenerator.generateLoaderConfig: note `loaderHash` is the
placeholder string "000000" ("will be calculated later"). -/
def generateLoaderConfig (proj : ProjectIn) (oracle : CryptoOracle) : LoaderConfig :=
  { apiBaseUrl := oracle.apiBaseUrl
    projectId := proj.projectId
    integrityHash := oracle.payloadHashPrefix
    obfuscationKey := oracle.obfuscationKeyHex
    antiTamperKey := oracle.antiTamperKeyHex
    loaderHash := "000000" }

/-- The project-specific integrity check text spliced in by
addProjectCustomizations (generateProjectHash abstracted as the md5
oracle). -/
def projectCustomCheck (proj : ProjectIn) (config : LoaderConfig)
    (oracle : CryptoOracle) : String :=
  "\n-- Project-specific integrity check\nlocal function _project_integrity_check()\n    local project_hash = \""
  ++ proj.projectId ++ "\"..\"" ++ config.antiTamperKey
  ++ "\"\n    local expected = " ++ oracle.projectHashHex
  ++ "\n    local actual = 0\n    for i = 1, #project_hash do\n        actual = actual + string.byte(project_hash, i)\n    end\n    return actual % 999999 == expected\nend\n\nif not _project_integrity_check() then\n    return false\nend"

def digitsToNat (l : List Char) : Nat :=
  l.foldl (fun acc c => acc * 10 + (c.toNat - 48)) 0

/-- LoaderGenerator.generateExpectedRange:
`parseInt(projectId.replace(/\D/g, '').substring(0, 4) || '1000')`
plus/minus 100, rendered as the two-element Lua table body. -/
def generateExpectedRange (proj : ProjectIn) : String :=
  let digits := proj.projectId.data.filter Char.isDigit
  let taken := digits.take 4
  let base : Int := Int.ofNat (if taken.isEmpty then 1000 else digitsToNat taken)
  toString (base - 100) ++ ", " ++ toString (base + 100)

/-- The premium anti-tamper block of addPremiumFeatures. -/
def premiumFeaturesText (proj : ProjectIn) : String :=
  "\n-- Premium anti-tamper features\nlocal function _premium_checks()\n    -- Check for common exploit tools\n    local exploit_signatures = \x7b\n        \"synapse\", \"krnl\", \"oxygen\", \"sentinel\", \"protosmasher\"\n    \x7d\n    \n    for _, sig in pairs(exploit_signatures) do\n        if string.find(string.lower(tostring(_G)), sig) then\n            return false\n        end\n    end\n    \n    -- Advanced environment fingerprinting\n    local env_signature = 0\n    for k, v in pairs(getfenv()) do\n        env_signature = env_signature + #tostring(k) * #tostring(type(v))\n    end\n    \n    -- Check against expected signature (varies by project)\n    local expected_range = \x7b"
  ++ generateExpectedRange proj
  ++ "\x7d\n    if env_signature < expected_range[1] or env_signature > expected_range[2] then\n        return false\n    end\n    \n    return true\nend\n\nif not _premium_checks() then\n    return false\nend"

/-- LoaderGenerator.addPremiumFeatures: splice the premium block before
the `-- Perform anti-debugging checks` marker (or leave the loader
unchanged when the marker is absent). -/
def addPremiumFeatures (loader : String) (proj : ProjectIn) : String :=
  insertBeforeMarker "-- Perform anti-debugging checks" (premiumFeaturesText proj ++ "\n\n") loader

/-- LoaderGenerator.addProjectCustomizations. -/
def addProjectCustomizations (loader : String) (proj : ProjectIn)
    (config : LoaderConfig) (oracle : CryptoOracle) : String :=
  let customized :=
    if proj.settingsIntegrityChecks then
      insertBeforeMarker "-- Anti-debugging checks"
        (projectCustomCheck proj config oracle ++ "\n\n") loader
    else loader
  if proj.settingsTier == "premium" then addPremiumFeatures customized proj else customized

structure GenOut where
  loader : String
  config : LoaderConfig
deriving DecidableEq

/-- LoaderGenerator.generateLoader, step for step: (1) replace the six
template placeholders globally — including `LOADER_HASH`, replaced here
with the config's "000000" placeholder value; (2) optionally obfuscate
the loader; (3) add project customizations; (4) compute the final
integrity hash of the assembled text and substitute it into the first
`LOADER_HASH` placeholder occurrence still present. -/
def generateLoader (template : String) (proj : ProjectIn) (opts : GenOptions)
    (oracle : CryptoOracle) : GenOut :=
  let config := generateLoaderConfig proj oracle
  let l1 := replaceAll template "\x7b\x7bAPI_BASE_URL\x7d\x7d" config.apiBaseUrl
  let l2 := replaceAll l1 "\x7b\x7bPROJECT_ID\x7d\x7d" config.projectId
  let l3 := replaceAll l2 "\x7b\x7bINTEGRITY_HASH\x7d\x7d" config.integrityHash
  let l4 := replaceAll l3 "\x7b\x7bOBFUSCATION_KEY\x7d\x7d" config.obfuscationKey
  let l5 := replaceAll l4 "\x7b\x7bANTI_TAMPER_KEY\x7d\x7d" config.antiTamperKey
  let l6 := replaceAll l5 "\x7b\x7bLOADER_HASH\x7d\x7d" config.loaderHash
  let l7 := if opts.obfuscateLoader then obfuscateLoader l6 else l6
  let l8 := addProjectCustomizations l7 proj config oracle
  let finalHash := generateIntegrityHash l8
  let l9 := replaceFirst l8 "\x7b\x7bLOADER_HASH\x7d\x7d" finalHash
  { loader := l9, config := config }

/-! ## The generated loader's runtime state machine
(client-loader/loader-template.lua, validateAndExecute) -/

/-- `local MAX_EXECUTIONS = 1` in the template (never substituted by the
generator). -/
def MAX_EXECUTIONS : Nat := 1

structure LoaderState where
  executionCount : Nat
deriving DecidableEq

/-- The JSON object the loader expects back from /loader/validate. -/
structure LoaderResp where
  valid : Bool
  code : Option String
deriving DecidableEq

/-- The impure outcomes of one validateAndExecute invocation:
the two environment checks, the LocalPlayer identity, the network result
(none models all retries failing), the decrypt-and-checksum result as a
function of the returned code (the deployment key is fixed inside it),
and the two pcall outcomes of executeSecureCode. -/
structure LoaderEnv where
  integrityOk : Bool
  antiDebugOk : Bool
  localPlayerUserId : Option String
  response : Option LoaderResp
  decrypt : Option String → Option String
  compileOk : Bool
  execOk : Bool

/-- What the call did on the way: whether the network handshake ran and
whether the decrypted payload was executed. -/
structure CallFx where
  networkCalled : Bool
  payloadExecuted : Bool
deriving DecidableEq

structure CallResult where
  result : Bool
  state : LoaderState
  fx : CallFx
deriving DecidableEq

/-- executeSecureCode: empty code fails fast; then pcall(loadstring),
then the guarded execution (both silent on failure). -/
def executeSecureCode (env : LoaderEnv) (code : String) : Bool × Bool :=
  if code == "" then (false, false)
  else if !env.compileOk then (false, false)
  else (env.execOk, true)

/-- validateAndExecute: increments EXECUTION_COUNT first, rejects past
MAX_EXECUTIONS, then integrity check, anti-debug check, key shape check,
network handshake, payload decrypt, sandboxed execution. -/
def validateAndExecute (env : LoaderEnv) (userKey userId : Option String)
    (st : LoaderState) : CallResult :=
  let count := st.executionCount + 1
  let st' : LoaderState := { executionCount := count }
  if count > MAX_EXECUTIONS then
    { result := false, state := st', fx := { networkCalled := false, payloadExecuted := false } }
  else if !env.integrityOk then
    { result := false, state := st', fx := { networkCalled := false, payloadExecuted := false } }
  else if !env.antiDebugOk then
    { result := false, state := st', fx := { networkCalled := false, payloadExecuted := false } }
  else
    match userKey with
    | none =>
      { result := false, state := st', fx := { networkCalled := false, payloadExecuted := false } }
    | some k =>
      if k.length < 10 then
        { result := false, state := st', fx := { networkCalled := false, payloadExecuted := false } }
      else
        let _uid := match userId with
          | some u => u
          | none => match env.localPlayerUserId with | some v => v | none => ""
        match env.response with
        | none =>
          { result := false, state := st', fx := { networkCalled := true, payloadExecuted := false } }
        | some r =>
          if !r.valid then
            { result := false, state := st', fx := { networkCalled := true, payloadExecuted := false } }
          else
            match env.decrypt r.code with
            | none =>
              { result := false, state := st',
                fx := { networkCalled := true, payloadExecuted := false } }
            | some code =>
              let (res, ex) := executeSecureCode env code
              { result := res, state := st',
                fx := { networkCalled := true, payloadExecuted := ex } }

/-- One invocation's inputs. -/
structure CallIn where
  env : LoaderEnv
  userKey : Option String
  userId : Option String

/-- The loader state left behind by a sequence of invocations on one
loaded artifact instance (EXECUTION_COUNT is the only mutable state the
function touches). -/
def stateAfter (st : LoaderState) (calls : List CallIn) : LoaderState :=
  calls.foldl (fun s c => (validateAndExecute c.env c.userKey c.userId s).state) st

/-! ## Concrete fixtures used by witnesses and counterexamples -/

/-- A stage set whose every stage succeeds unchanged. -/
def idStages : StageImpls :=
  { encryptStrings := fun s => Except.ok s
    renameVariables := fun s => Except.ok s
    addAntiDebugging := fun s => Except.ok s
    flattenControlFlow := fun s => Except.ok s
    encryptBytecode := fun s => Except.ok s
    virtualize := fun s => Except.ok s
    addIntegrityChecks := fun s => Except.ok s
    wrapObfuscatedCode := fun s => s }

/-- A stage set whose string-encryption stage raises. -/
def faultyStages : StageImpls :=
  { idStages with encryptStrings := fun _ => Except.error "stage fault" }

/-- A loader environment in which every check would pass but the network
returns nothing. -/
def quietEnv : LoaderEnv :=
  { integrityOk := true, antiDebugOk := true, localPlayerUserId := none,
    response := none, decrypt := fun _ => none, compileOk := false, execOk := false }

def projA : ProjectRec :=
  { oid := 1, projectId := "p1", name := "P", isActive := true,
    obfuscatedCode := "the payload", statsTotalActivations := 0,
    statsLastActivation := none }

/-- An ordinary active credential of project 1 (not the sentinel). -/
def kReal : KeyRec :=
  { id := 1, keyString := "REALKEY-123", project := 1, owner := 1,
    type := "permanent", expiresAt := none, linkedUserId := some "u1",
    status := "active", totalActivations := 0, lastUsed := none,
    lastUserAgent := none, lastIP := none, activationHistory := [],
    maxActivations := none, allowedIPs := [], allowedUserIds := [],
    banIsBanned := false, banBannedAt := none, banReason := none }

/-- A banned credential of project 1. -/
def kBanned : KeyRec :=
  { kReal with id := 2, keyString := "BANNEDKEY-1", status := "banned" }

/-- An otherwise-valid credential with maxActivations 1 already used
once. -/
def kMaxed : KeyRec :=
  { kReal with
    id := 3
    keyString := "MAXEDKEY-1"
    linkedUserId := none
    maxActivations := some 1
    totalActivations := 1 }

/-- A stored credential whose secret is literally the sentinel and whose
IP allowlist excludes the caller. -/
def kSentinel : KeyRec :=
  { kReal with
    id := 4
    keyString := "TAMPER_DETECTED"
    linkedUserId := none
    allowedIPs := ["9.9.9.9"] }

/-- A fresh credential bound to user "u1" with a budget of one. -/
def kBound : KeyRec :=
  { kReal with
    id := 5
    keyString := "BOUNDKEY-12"
    linkedUserId := some "u1"
    maxActivations := some 1 }

def dbReal : DB := { projects := [projA], keys := [kReal] }
def dbBanned : DB := { projects := [projA], keys := [kBanned] }
def dbMaxed : DB := { projects := [projA], keys := [kMaxed] }
def dbSentinel : DB := { projects := [projA], keys := [kSentinel] }
def dbBound : DB := { projects := [projA], keys := [kBound] }

/-- A /validate request presenting the tamper sentinel against a store
that holds no credential with that secret. -/
def tamperReq : ValReq :=
  { projectId := some "p1", userKey := some "TAMPER_DETECTED",
    userId := some "u1", userAgent := some "ua", ip := "1.2.3.4" }

/-- The toy deployment used to exhibit the loader-hash defect. -/
def loaderTemplateToy : String :=
  "local LOADER_HASH = \"\x7b\x7bLOADER_HASH\x7d\x7d\"\nreturn LOADER_HASH"

def projToy : ProjectIn :=
  { projectId := "p1", name := "P", createdAt := "",
    settingsIntegrityChecks := false, settingsTier := "standard" }

def oracleToy : CryptoOracle :=
  { apiBaseUrl := "http://localhost:3000/api", obfuscationKeyHex := "aa",
    antiTamperKeyHex := "bb", payloadHashPrefix := "cc", projectHashHex := "dd" }

/-- A constant encryption oracle for exercising encryptStringsCore. -/
def encE : String → String := fun _ => "E"

/-- One well-formed loader invocation. -/
def oneCall : CallIn :=
  { env := quietEnv, userKey := some "0123456789", userId := none }

/-- A /validate request with no headers at all. -/
def req0 : ValReq :=
  { projectId := none, userKey := none, userId := none, userAgent := none, ip := "" }

/-! # Theorems -/

/-! ## Helper lemmas -/

theorem validateAndExecute_state (env : LoaderEnv) (uk uid : Option String)
    (st : LoaderState) :
    (validateAndExecute env uk uid st).state = ⟨st.executionCount + 1⟩ := by
  simp only [validateAndExecute]
  repeat' split
  all_goals rfl

theorem stateAfter_count (calls : List CallIn) :
    ∀ st : LoaderState,
      (stateAfter st calls).executionCount = st.executionCount + calls.length := by
  induction calls with
  | nil => intro st; simp [stateAfter]
  | cons c rest ih =>
    intro st
    show (stateAfter (validateAndExecute c.env c.userKey c.userId st).state rest).executionCount = _
    rw [ih, validateAndExecute_state]
    simp [Nat.add_assoc, Nat.add_comm 1 rest.length]

/-- After at least one prior invocation the execution counter rejects
immediately, before any effect. -/
theorem validateAndExecute_exhausted (env : LoaderEnv) (uk uid : Option String)
    (st : LoaderState) (h : 1 ≤ st.executionCount) :
    validateAndExecute env uk uid st =
      { result := false, state := ⟨st.executionCount + 1⟩,
        fx := { networkCalled := false, payloadExecuted := false } } := by
  have hgt : st.executionCount + 1 > MAX_EXECUTIONS := by
    unfold MAX_EXECUTIONS; omega
  simp only [validateAndExecute]
  rw [if_pos hgt]

/-! ## C9 -/

/-- C9 (confirmed): in the generated loader's state machine the explicit
execution counter (MAX_EXECUTIONS = 1 by default) rejects repeats: for
every sequence of prior calls to validateAndExecute on one loaded
artifact instance, every invocation after the first returns false with no
network handshake and no payload execution, whatever the environment and
arguments of that invocation. -/
theorem loader_single_use_budget (calls : List CallIn) (h : calls ≠ [])
    (env : LoaderEnv) (uk uid : Option String) :
    (validateAndExecute env uk uid (stateAfter ⟨0⟩ calls)).result = false
    ∧ (validateAndExecute env uk uid (stateAfter ⟨0⟩ calls)).fx
      = { networkCalled := false, payloadExecuted := false } := by
  have hc : (stateAfter ⟨0⟩ calls).executionCount = calls.length := by
    rw [stateAfter_count]; simp
  have h1 : 1 ≤ (stateAfter ⟨0⟩ calls).executionCount := by
    rw [hc]; exact List.length_pos.mpr h
  rw [validateAndExecute_exhausted env uk uid _ h1]
  exact ⟨rfl, rfl⟩

/-- Witness for C9 at a concrete one-call history. -/
theorem loader_single_use_budget_witness :
    ([oneCall] : List CallIn) ≠ []
    ∧ ((validateAndExecute quietEnv (some "0123456789") none (stateAfter ⟨0⟩ [oneCall])).result = false
       ∧ (validateAndExecute quietEnv (some "0123456789") none (stateAfter ⟨0⟩ [oneCall])).fx
         = { networkCalled := false, payloadExecuted := false }) :=
  ⟨by simp, loader_single_use_budget [oneCall] (by simp) quietEnv (some "0123456789") none⟩

/-! ## C8 -/

/-- C8 (confirmed): with a standard tier, the premium-only flags
(virtualization, control-flow flattening, bytecode encryption) are
silently ignored: flipping any of them does not change the output of
obfuscate, all other inputs and the stage randomness held fixed. -/
theorem standard_tier_ignores_premium_flags (o : ObfOptions) (st : StageImpls)
    (src : String) (h : o.tier = "standard") :
    obfuscate { o with virtualization := true } st src
      = obfuscate { o with virtualization := false } st src
    ∧ obfuscate { o with controlFlowFlattening := true } st src
      = obfuscate { o with controlFlowFlattening := false } st src
    ∧ obfuscate { o with bytecodeEncryption := true } st src
      = obfuscate { o with bytecodeEncryption := false } st src := by
  unfold obfuscate
  simp [h]

/-- Witness for C8 at the default options. -/
theorem standard_tier_ignores_premium_flags_witness :
    ({} : ObfOptions).tier = "standard"
    ∧ obfuscate { ({} : ObfOptions) with virtualization := true } idStages "print(1)"
      = obfuscate { ({} : ObfOptions) with virtualization := false } idStages "print(1)" :=
  ⟨rfl, (standard_tier_ignores_premium_flags {} idStages "print(1)" rfl).1⟩

/-! ## C6 -/

/-- C6 counterexample: with the default options and a stage set whose
string-encryption stage raises, obfuscate as a whole aborts with that
error and produces no output at all — refuting the claim that an
exception inside a single stage never causes obfuscate to abort without
producing output (there is no pass-through of the original unit
either). -/
theorem stage_fault_aborts_pipeline :
    obfuscate {} faultyStages "print(1)" = Except.error "stage fault" := rfl

/-- C6 amended: the pipeline has no per-stage fault handling: an
exception raised by an enabled stage propagates out of obfuscate, which
then produces no output (shown for the first stage, and for the last
fallible stage with everything before it disabled). -/
theorem stage_fault_propagates (o : ObfOptions) (st : StageImpls)
    (src e : String) :
    (o.stringEncryption = true → st.encryptStrings src = Except.error e →
      obfuscate o st src = Except.error e)
    ∧ (o.stringEncryption = false → o.variableRenaming = false →
       o.antiDebugging = false → o.tier = "standard" → o.integrityChecks = true →
       st.addIntegrityChecks src = Except.error e →
       obfuscate o st src = Except.error e) := by
  constructor
  · intro h1 h2
    simp only [obfuscate, h1, h2, if_true]
    rfl
  · intro h1 h2 h3 h4 h5 h6
    simp [obfuscate, h1, h2, h3, h4, h5, h6]

/-- Witness for the amended C6. -/
theorem stage_fault_propagates_witness :
    ({} : ObfOptions).stringEncryption = true
    ∧ faultyStages.encryptStrings "print(1)" = Except.error "stage fault"
    ∧ obfuscate {} faultyStages "print(1)" = Except.error "stage fault" :=
  ⟨rfl, rfl, (stage_fault_propagates {} faultyStages "print(1)" "stage fault").1 rfl rfl⟩

/-! ## C5 -/

/-- C5 (confirmed): whenever /validate answers with valid:false — any
rejection branch, including the internal-error catch — the response
carries no payload code field. -/
theorem invalid_response_has_no_payload :
    (∀ (now : Nat) (req : ValReq) (db : DB),
        (validate now req db).resp.valid = false → (validate now req db).resp.code = none)
    ∧ internalErrorResp.code = none := by
  refine ⟨fun now req db => ?_, rfl⟩
  simp only [validate]
  repeat' split
  all_goals intro h
  all_goals simp_all [errResp]

/-- Witness for C5 at a concrete rejected request. -/
theorem invalid_response_has_no_payload_witness :
    (validate 0 req0 dbReal).resp.valid = false
    ∧ (validate 0 req0 dbReal).resp.code = none :=
  ⟨rfl, invalid_response_has_no_payload.1 0 req0 dbReal rfl⟩

/-! ## Helper lemmas about the key state machine -/

theorem keyIsValid_banned (now : Nat) (k : KeyRec) (h : k.status = "banned") :
    keyIsValid now k = (false, k) := by
  simp [keyIsValid, h]

theorem keyIsValid_ok (now : Nat) (k : KeyRec) (h1 : k.status = "active")
    (h2 : k.banIsBanned = false) (h3 : keyIsExpired now k = false) :
    keyIsValid now k = (true, k) := by
  simp [keyIsValid, h1, h2, h3]

theorem recordActivation_id (now : Nat) (uid : Option String) (ip : String)
    (ua : Option String) (s : Bool) (ec : Option String) (k : KeyRec) :
    (recordActivation now uid ip ua s ec k).id = k.id := rfl

theorem recordActivation_keyString (now : Nat) (uid : Option String) (ip : String)
    (ua : Option String) (s : Bool) (ec : Option String) (k : KeyRec) :
    (recordActivation now uid ip ua s ec k).keyString = k.keyString := rfl

theorem recordActivation_project (now : Nat) (uid : Option String) (ip : String)
    (ua : Option String) (s : Bool) (ec : Option String) (k : KeyRec) :
    (recordActivation now uid ip ua s ec k).project = k.project := rfl

theorem recordActivation_status (now : Nat) (uid : Option String) (ip : String)
    (ua : Option String) (s : Bool) (ec : Option String) (k : KeyRec) :
    (recordActivation now uid ip ua s ec k).status = k.status := rfl

theorem recordActivation_banIsBanned (now : Nat) (uid : Option String) (ip : String)
    (ua : Option String) (s : Bool) (ec : Option String) (k : KeyRec) :
    (recordActivation now uid ip ua s ec k).banIsBanned = k.banIsBanned := rfl

theorem recordActivation_expiresAt (now : Nat) (uid : Option String) (ip : String)
    (ua : Option String) (s : Bool) (ec : Option String) (k : KeyRec) :
    (recordActivation now uid ip ua s ec k).expiresAt = k.expiresAt := rfl

theorem recordActivation_linkedUserId (now : Nat) (uid : Option String) (ip : String)
    (ua : Option String) (s : Bool) (ec : Option String) (k : KeyRec) :
    (recordActivation now uid ip ua s ec k).linkedUserId = k.linkedUserId := rfl

theorem recordActivation_maxActivations (now : Nat) (uid : Option String) (ip : String)
    (ua : Option String) (s : Bool) (ec : Option String) (k : KeyRec) :
    (recordActivation now uid ip ua s ec k).maxActivations = k.maxActivations := rfl

theorem recordActivation_allowedIPs (now : Nat) (uid : Option String) (ip : String)
    (ua : Option String) (s : Bool) (ec : Option String) (k : KeyRec) :
    (recordActivation now uid ip ua s ec k).allowedIPs = k.allowedIPs := rfl

theorem recordActivation_totalActivations (now : Nat) (uid : Option String) (ip : String)
    (ua : Option String) (s : Bool) (ec : Option String) (k : KeyRec) :
    (recordActivation now uid ip ua s ec k).totalActivations = k.totalActivations + 1 := rfl

theorem banKeysOfUser_bans (u : String) (db : DB) (k' : KeyRec)
    (hm : k' ∈ (banKeysOfUser u db).keys) (hl : k'.linkedUserId = some u) :
    k'.status = "banned" := by
  simp only [banKeysOfUser, List.mem_map] at hm
  obtain ⟨a, _, hak⟩ := hm
  by_cases hc : (a.linkedUserId == some u) = true
  · rw [if_pos hc] at hak
    rw [← hak]
  · rw [if_neg hc] at hak
    subst hak
    exact absurd (by simp [hl]) hc

theorem findProject_cons (p : ProjectRec) (ps : List ProjectRec) (ks : List KeyRec)
    (pid : String) (h : p.projectId = pid) :
    findProject ⟨p :: ps, ks⟩ pid = some p := by
  unfold findProject
  exact List.find?_cons_of_pos _ (by simp [h])

theorem findKey_cons (ps : List ProjectRec) (k : KeyRec) (ks : List KeyRec)
    (uk : String) (poid : Nat) (h1 : k.keyString = uk) (h2 : k.project = poid) :
    findKey ⟨ps, k :: ks⟩ uk poid = some k := by
  unfold findKey
  exact List.find?_cons_of_pos _ (by simp [h1, h2])

/-! ## C4 -/

/-- C4 (confirmed): a found-but-banned credential always yields
valid:false with the ban message (and the KEY_BANNED audit code),
whatever the other headers are; and an otherwise-valid credential with
maxActivations = 1 and one recorded activation yields valid:false with
the activation-limit message and the MAX_ACTIVATIONS_REACHED audit
code. -/
theorem banned_and_activation_limit (now : Nat) (pid uk : String)
    (uid ua : Option String) (ip : String) (db : DB) (proj : ProjectRec)
    (key : KeyRec) (hpid : pid ≠ "") (huk : uk ≠ "")
    (hfp : findProject db pid = some proj) (hact : proj.isActive = true)
    (hfk : findKey db uk proj.oid = some key) :
    (key.status = "banned" →
      (validate now ⟨some pid, some uk, uid, ua, ip⟩ db).resp.valid = false
      ∧ (validate now ⟨some pid, some uk, uid, ua, ip⟩ db).resp.error = some "Key is banned"
      ∧ (validate now ⟨some pid, some uk, uid, ua, ip⟩ db).events
          = [Event.analytics "error" (some "KEY_BANNED")])
    ∧ (key.status = "active" → key.banIsBanned = false → keyIsExpired now key = false →
       linkedUserMismatch key uid = false → uk ≠ "TAMPER_DETECTED" →
       key.maxActivations = some 1 → key.totalActivations = 1 →
        (validate now ⟨some pid, some uk, uid, ua, ip⟩ db).resp.valid = false
        ∧ (validate now ⟨some pid, some uk, uid, ua, ip⟩ db).resp.error
            = some "Activation limit reached"
        ∧ (validate now ⟨some pid, some uk, uid, ua, ip⟩ db).events
            = [Event.analytics "error" (some "MAX_ACTIVATIONS_REACHED")]) := by
  constructor
  · intro hb
    refine ⟨?_, ?_, ?_⟩ <;>
      simp [validate, jsTruthy, hpid, huk, hfp, hact, hfk, keyIsValid_banned, hb, errResp]
  · intro h1 h2 h3 h4 h5 h6 h7
    refine ⟨?_, ?_, ?_⟩ <;>
      simp [validate, jsTruthy, hpid, huk, hfp, hact, hfk, keyIsValid_ok, h1, h2, h3, h4,
        h5, maxActivationsReached, h6, h7, errResp]

/-- Witness for C4: the banned credential and the exhausted credential of
the concrete store. -/
theorem banned_and_activation_limit_witness :
    (validate 0 ⟨some "p1", some "BANNEDKEY-1", some "u1", some "ua", "1.2.3.4"⟩ dbBanned).resp.error
      = some "Key is banned"
    ∧ (validate 0 ⟨some "p1", some "MAXEDKEY-1", some "u1", some "ua", "1.2.3.4"⟩ dbMaxed).resp.error
      = some "Activation limit reached" :=
  ⟨((banned_and_activation_limit 0 "p1" "BANNEDKEY-1" (some "u1") (some "ua") "1.2.3.4"
      dbBanned projA kBanned (by decide) (by decide) rfl rfl rfl).1 rfl).2.1,
   ((banned_and_activation_limit 0 "p1" "MAXEDKEY-1" (some "u1") (some "ua") "1.2.3.4"
      dbMaxed projA kMaxed (by decide) (by decide) rfl rfl rfl).2
      rfl rfl rfl rfl (by decide) rfl rfl).2.1⟩

/-! ## C3 -/

/-- C3 counterexample: a validation request whose credential header
carries the reserved sentinel TAMPER_DETECTED, against a deployment that
stores no credential with that secret, is answered with the ordinary
KEY_NOT_FOUND rejection: no tamper event is recorded, no notification is
sent, and no credential of the presented caller identity is banned (the
store is untouched) — refuting "this outcome is reached for every such
request rather than only when a stored credential whose secret equals the
sentinel exists for the deployment". -/
theorem tamper_sentinel_counterexample :
    (validate 0 tamperReq dbReal).resp = errResp 401 "Invalid key"
    ∧ (validate 0 tamperReq dbReal).events = [Event.analytics "error" (some "KEY_NOT_FOUND")]
    ∧ (validate 0 tamperReq dbReal).db = dbReal :=
  ⟨rfl, rfl, rfl⟩

/-- C3 amended: the tamper outcome (tamper analytics event, webhook
notification, mass ban of the caller identity's credentials, Access
denied rejection) is reached exactly when a *stored* credential whose
secret equals the sentinel exists for the deployment, is currently
valid, passes the identity binding, and carries an IP allowlist that
excludes the caller — the branch sits after the real credential lookup,
not before it. -/
theorem tamper_sentinel_requires_stored_credential (now : Nat) (pid : String)
    (uid ua : Option String) (ip : String) (db : DB) (proj : ProjectRec)
    (key : KeyRec) (hpid : pid ≠ "")
    (hfp : findProject db pid = some proj) (hact : proj.isActive = true)
    (hfk : findKey db "TAMPER_DETECTED" proj.oid = some key)
    (h1 : key.status = "active") (h2 : key.banIsBanned = false)
    (h3 : keyIsExpired now key = false) (h4 : linkedUserMismatch key uid = false)
    (h5 : key.allowedIPs ≠ []) (h6 : key.allowedIPs.contains ip = false) :
    (validate now ⟨some pid, some "TAMPER_DETECTED", uid, ua, ip⟩ db).resp
      = errResp 401 "Access denied"
    ∧ (validate now ⟨some pid, some "TAMPER_DETECTED", uid, ua, ip⟩ db).events
      = [Event.analytics "tamper" none, Event.webhook "tamper_detected"]
    ∧ (validate now ⟨some pid, some "TAMPER_DETECTED", uid, ua, ip⟩ db).db
      = (if jsTruthy uid then banKeysOfUser (uid.getD "") db else db)
    ∧ (∀ u : String, uid = some u → u ≠ "" →
        ∀ k' ∈ (validate now ⟨some pid, some "TAMPER_DETECTED", uid, ua, ip⟩ db).db.keys,
          k'.linkedUserId = some u → k'.status = "banned") := by
  have h5' : key.allowedIPs.isEmpty = false := by
    cases hl : key.allowedIPs with
    | nil => exact absurd hl h5
    | cons a l => rfl
  have h6' : ¬ ip ∈ key.allowedIPs := by simpa using h6
  have hv : (validate now ⟨some pid, some "TAMPER_DETECTED", uid, ua, ip⟩ db).db
      = (if jsTruthy uid then banKeysOfUser (uid.getD "") db else db) := by
    simp [validate, jsTruthy, hpid, hfp, hact, hfk, keyIsValid_ok, h1, h2, h3, h4, h5', h6']
  refine ⟨?_, ?_, hv, ?_⟩
  · simp [validate, jsTruthy, hpid, hfp, hact, hfk, keyIsValid_ok, h1, h2, h3, h4, h5', h6']
  · simp [validate, jsTruthy, hpid, hfp, hact, hfk, keyIsValid_ok, h1, h2, h3, h4, h5', h6']
  · intro u hu hne k' hk' hlink
    rw [hv, hu] at hk'
    have hj : jsTruthy (some u) = true := by simp [jsTruthy, hne]
    rw [hj] at hk'
    simp only [if_true] at hk'
    exact banKeysOfUser_bans u db k' (by simpa using hk') hlink

/-- Witness for the amended C3: a stored sentinel credential with an IP
allowlist excluding the caller triggers the tamper outcome. -/
theorem tamper_sentinel_requires_stored_credential_witness :
    (validate 0 ⟨some "p1", some "TAMPER_DETECTED", some "u1", some "ua", "1.2.3.4"⟩ dbSentinel).resp
      = errResp 401 "Access denied"
    ∧ (validate 0 ⟨some "p1", some "TAMPER_DETECTED", some "u1", some "ua", "1.2.3.4"⟩ dbSentinel).events
      = [Event.analytics "tamper" none, Event.webhook "tamper_detected"] :=
  ⟨(tamper_sentinel_requires_stored_credential 0 "p1" (some "u1") (some "ua") "1.2.3.4"
      dbSentinel projA kSentinel (by decide) rfl rfl rfl rfl rfl rfl rfl
      (by decide) (by decide)).1,
   (tamper_sentinel_requires_stored_credential 0 "p1" (some "u1") (some "ua") "1.2.3.4"
      dbSentinel projA kSentinel (by decide) rfl rfl rfl rfl rfl rfl rfl
      (by decide) (by decide)).2.1⟩

/-! ## C10 -/

/-- C10 (confirmed): recordActivation increments usage.totalActivations
by exactly one on every recorded attempt, successful or failed; and since
the activation-limit gate compares that same counter, a credential with
maxActivations = 1 and no successful activation at all can reach
MAX_ACTIVATIONS_REACHED: a first attempt with a mismatched caller
identity consumes the budget, and the correctly-bound second attempt is
rejected with the limit reason while the stored history contains only
failed entries. -/
theorem activation_budget_counts_failures :
    (∀ (now : Nat) (uid : Option String) (ip : String) (ua : Option String)
        (success : Bool) (ec : Option String) (k : KeyRec),
        (recordActivation now uid ip ua success ec k).totalActivations
          = k.totalActivations + 1)
    ∧ ∀ (now : Nat) (pid uk u v : String) (ua : Option String) (ip : String)
        (p : ProjectRec) (k : KeyRec),
        p.projectId = pid → pid ≠ "" → k.keyString = uk → uk ≠ "" →
        uk ≠ "TAMPER_DETECTED" → k.project = p.oid → p.isActive = true →
        k.status = "active" → k.banIsBanned = false → k.expiresAt = none →
        k.linkedUserId = some u → u ≠ "" → v ≠ u →
        k.maxActivations = some 1 → k.totalActivations = 0 →
        k.activationHistory = [] →
        (validate now ⟨some pid, some uk, some v, ua, ip⟩ ⟨[p], [k]⟩).resp.valid = false
        ∧ (validate now ⟨some pid, some uk, some v, ua, ip⟩ ⟨[p], [k]⟩).resp.error
            = some "Key not authorized for this user"
        ∧ (validate now ⟨some pid, some uk, some v, ua, ip⟩ ⟨[p], [k]⟩).db
            = ⟨[p], [recordActivation now (some v) ip ua false (some "USER_ID_MISMATCH") k]⟩
        ∧ (validate now ⟨some pid, some uk, some u, ua, ip⟩
             ⟨[p], [recordActivation now (some v) ip ua false (some "USER_ID_MISMATCH") k]⟩).resp.valid
            = false
        ∧ (validate now ⟨some pid, some uk, some u, ua, ip⟩
             ⟨[p], [recordActivation now (some v) ip ua false (some "USER_ID_MISMATCH") k]⟩).resp.error
            = some "Activation limit reached"
        ∧ (validate now ⟨some pid, some uk, some u, ua, ip⟩
             ⟨[p], [recordActivation now (some v) ip ua false (some "USER_ID_MISMATCH") k]⟩).events
            = [Event.analytics "error" (some "MAX_ACTIVATIONS_REACHED")]
        ∧ ∀ k' ∈ (validate now ⟨some pid, some uk, some u, ua, ip⟩
             ⟨[p], [recordActivation now (some v) ip ua false (some "USER_ID_MISMATCH") k]⟩).db.keys,
            k'.activationHistory.all (fun e => !e.success) = true := by
  refine ⟨fun now uid ip ua success ec k => rfl, ?_⟩
  intro now pid uk u v ua ip p k hppid hpidne hkuk hukne hsent hkproj hact
    h1 h2 h3 h4 hu hvne h5 h6 h7
  have hexp : keyIsExpired now k = false := by simp [keyIsExpired, h3]
  have hfp1 : findProject ⟨[p], [k]⟩ pid = some p := findProject_cons _ _ _ _ hppid
  have hfk1 : findKey ⟨[p], [k]⟩ uk p.oid = some k := findKey_cons _ _ _ _ _ hkuk hkproj
  have hmm : linkedUserMismatch k (some v) = true := by
    simp [linkedUserMismatch, h4, hu, hvne]
  have hfk2 : findKey ⟨[p], [recordActivation now (some v) ip ua false (some "USER_ID_MISMATCH") k]⟩
      uk p.oid = some (recordActivation now (some v) ip ua false (some "USER_ID_MISMATCH") k) :=
    findKey_cons _ _ _ _ _ (by rw [recordActivation_keyString]; exact hkuk)
      (by rw [recordActivation_project]; exact hkproj)
  have hst2 : (recordActivation now (some v) ip ua false (some "USER_ID_MISMATCH") k).status
      = "active" := by rw [recordActivation_status]; exact h1
  have hban2 : (recordActivation now (some v) ip ua false (some "USER_ID_MISMATCH") k).banIsBanned
      = false := by rw [recordActivation_banIsBanned]; exact h2
  have hexp2 : keyIsExpired now (recordActivation now (some v) ip ua false (some "USER_ID_MISMATCH") k)
      = false := by simp [keyIsExpired, recordActivation_expiresAt, h3]
  have hmm2 : linkedUserMismatch (recordActivation now (some v) ip ua false (some "USER_ID_MISMATCH") k)
      (some u) = false := by
    simp [linkedUserMismatch, recordActivation_linkedUserId, h4]
  have hmax2 : maxActivationsReached (recordActivation now (some v) ip ua false (some "USER_ID_MISMATCH") k)
      = true := by
    simp [maxActivationsReached, recordActivation_maxActivations,
      recordActivation_totalActivations, h5, h6]
  refine ⟨?_, ?_, ?_, ?_, ?_, ?_, ?_⟩
  · simp [validate, jsTruthy, hpidne, hukne, hfp1, hact, hfk1, keyIsValid_ok, h1, h2, hexp, hmm,
      errResp]
  · simp [validate, jsTruthy, hpidne, hukne, hfp1, hact, hfk1, keyIsValid_ok, h1, h2, hexp, hmm,
      errResp]
  · simp [validate, jsTruthy, hpidne, hukne, hfp1, hact, hfk1, keyIsValid_ok, h1, h2, hexp, hmm,
      saveKey, recordActivation_id]
  · simp [validate, jsTruthy, hpidne, hukne, hact, hfk2, keyIsValid_ok,
      findProject_cons _ _ _ _ hppid, hst2, hban2, hexp2, hmm2, hmax2, hsent, errResp]
  · simp [validate, jsTruthy, hpidne, hukne, hact, hfk2, keyIsValid_ok,
      findProject_cons _ _ _ _ hppid, hst2, hban2, hexp2, hmm2, hmax2, hsent, errResp]
  · simp [validate, jsTruthy, hpidne, hukne, hact, hfk2, keyIsValid_ok,
      findProject_cons _ _ _ _ hppid, hst2, hban2, hexp2, hmm2, hmax2, hsent, errResp]
  · intro k' hk'
    simp [validate, jsTruthy, hpidne, hukne, hact, hfk2, keyIsValid_ok,
      findProject_cons _ _ _ _ hppid, hst2, hban2, hexp2, hmm2, hmax2, hsent,
      saveKey, recordActivation_id] at hk'
    subst hk'
    simp [recordActivation, h7]

/-- Witness for C10: a bound credential with budget 1; a mismatched
first attempt, then the correctly-bound second attempt is rejected with
the activation limit. -/
theorem activation_budget_counts_failures_witness :
    (validate 0 ⟨some "p1", some "BOUNDKEY-12", some "u2", some "ua", "1.2.3.4"⟩
        ⟨[projA], [kBound]⟩).resp.error = some "Key not authorized for this user"
    ∧ (validate 0 ⟨some "p1", some "BOUNDKEY-12", some "u1", some "ua", "1.2.3.4"⟩
        ⟨[projA], [recordActivation 0 (some "u2") "1.2.3.4" (some "ua") false
          (some "USER_ID_MISMATCH") kBound]⟩).resp.error
      = some "Activation limit reached" :=
  ⟨(activation_budget_counts_failures.2 0 "p1" "BOUNDKEY-12" "u1" "u2" (some "ua") "1.2.3.4"
      projA kBound rfl (by decide) rfl (by decide) (by decide) rfl rfl rfl rfl rfl rfl
      (by decide) (by decide) rfl rfl rfl).2.1,
   (activation_budget_counts_failures.2 0 "p1" "BOUNDKEY-12" "u1" "u2" (some "ua") "1.2.3.4"
      projA kBound rfl (by decide) rfl (by decide) (by decide) rfl rfl rfl rfl rfl rfl
      (by decide) (by decide) rfl rfl rfl).2.2.2.2.1⟩

/-! ## C1 -/

/-- C1 (code bug, concrete evaluation): generateLoader's first
substitution pass already replaces every LOADER_HASH placeholder with the
config's "000000" placeholder value, so step (4)'s final substitution
finds no placeholder left: the emitted artifact embeds the literal
"000000" in the self-hash slot, while generateIntegrityHash recomputed
over the artifact's own final text yields a different value — the
embedded self-hash can never equal the recomputation (the recomputed
checksum is a decimal numeral without leading zeros). -/
theorem loader_hash_mismatch :
    (generateLoader loaderTemplateToy projToy ⟨false⟩ oracleToy).loader
      = "local LOADER_HASH = \"000000\"\nreturn LOADER_HASH"
    ∧ (generateLoader loaderTemplateToy projToy ⟨false⟩ oracleToy).config.loaderHash = "000000"
    ∧ generateIntegrityHash (generateLoader loaderTemplateToy projToy ⟨false⟩ oracleToy).loader
      ≠ "000000" := by
  refine ⟨rfl, rfl, ?_⟩
  decide

/-! ## C7 -/

/-- C7 counterexample: the obfuscator's string-encryption stage has no
skip rule at all: a two-character literal (below the claimed minimum
length of 3) and an X- header literal (on the claimed allowlist) are both
rewritten into decrypt-call expressions and do not appear verbatim in the
stage output. -/
theorem encryptStrings_no_skip_counterexample :
    encryptStringsCore encE "x = \"ab\"" = "x = _G._EC_decrypt(\"E\")"
    ∧ encryptStringsCore encE "h = \"X-Key\"" = "h = _G._EC_decrypt(\"E\")" :=
  ⟨rfl, rfl⟩

/-- scanLit recovers a literal body that contains no quote and no
backslash. -/
theorem scanLit_clean : ∀ (content rest : List Char), ¬ '"' ∈ content →
    ¬ '\\' ∈ content →
    scanLit '"' (content ++ '"' :: rest) = some (content, rest) := by
  intro content
  induction content with
  | nil =>
    intro rest _ _
    rw [List.nil_append, scanLit.eq_def]
    simp
  | cons c cs ih =>
    intro rest h1 h2
    have hc1 : ¬ c = '"' := fun h => h1 (by simp [h])
    have hc2 : ¬ c = '\\' := fun h => h2 (by simp [h])
    have hcs1 : ¬ '"' ∈ cs := fun h => h1 (List.mem_cons_of_mem _ h)
    have hcs2 : ¬ '\\' ∈ cs := fun h => h2 (List.mem_cons_of_mem _ h)
    rw [List.cons_append, scanLit.eq_def]
    simp [hc1, hc2, ih rest hcs1 hcs2]

/-- The literal rewriter passes quote-free text through unchanged,
spending one unit of fuel per character. -/
theorem rewriteGo_pass (repl : Char → List Char → List Char) :
    ∀ (l t : List Char) (f : Nat), ¬ '"' ∈ l → l.length ≤ f →
      rewriteStringsGo ['"'] repl f (l ++ t)
        = l ++ rewriteStringsGo ['"'] repl (f - l.length) t := by
  intro l
  induction l with
  | nil => intro t f _ _; simp
  | cons c cs ih =>
    intro t f h1 hf
    have hc : ¬ c = '"' := fun h => h1 (by simp [h])
    have hcs0 : ¬ '"' ∈ cs := fun h => h1 (List.mem_cons_of_mem _ h)
    cases f with
    | zero => simp at hf
    | succ f' =>
      have hcs : cs.length ≤ f' := by simpa using hf
      rw [List.cons_append]
      simp only [rewriteStringsGo]
      rw [if_neg (by simp [hc])]
      rw [ih t f' hcs0 hcs]
      simp

theorem rewriteGo_nil (repl : Char → List Char → List Char) (f : Nat) :
    rewriteStringsGo ['"'] repl f [] = [] := by
  cases f <;> rfl

/-- C7 amended: the length/allowlist skip rules live in the loader
generator's obfuscateStrings (the string-to-char-code rewriting of the
generated loader), not in the obfuscator's StringEncryptionStage: a
double-quoted literal whose content is shorter than 3 characters or
matches shouldSkipString is kept verbatim by obfuscateStrings, and any
other literal is rewritten to a string.char call — while encryptStrings
rewrites every literal unconditionally (see the counterexample). -/
theorem obfuscateStrings_skip_rules (pre content post : List Char)
    (hpre : ¬ '"' ∈ pre) (hc1 : ¬ '"' ∈ content) (hc2 : ¬ '\\' ∈ content)
    (hpost : ¬ '"' ∈ post) :
    ((content.length < 3 || shouldSkipString (String.mk content)) = true →
      obfuscateStrings (String.mk (pre ++ '"' :: (content ++ '"' :: post)))
        = String.mk (pre ++ '"' :: (content ++ '"' :: post)))
    ∧ ((content.length < 3 || shouldSkipString (String.mk content)) = false →
      obfuscateStrings (String.mk (pre ++ '"' :: (content ++ '"' :: post)))
        = String.mk (pre ++ (charCodesCall content ++ post))) := by
  have hcore : rewriteStrings ['"'] (fun _ c => obfuscateStringsRepl c)
      (pre ++ '"' :: (content ++ '"' :: post))
      = pre ++ (obfuscateStringsRepl content ++ post) := by
    unfold rewriteStrings
    have hlen : pre.length ≤ (pre ++ '"' :: (content ++ '"' :: post)).length := by
      simp
    rw [rewriteGo_pass _ pre _ _ hpre hlen]
    have hm : (pre ++ '"' :: (content ++ '"' :: post)).length - pre.length
        = (content.length + post.length + 1) + 1 := by
      simp [List.length_append]
      omega
    rw [hm]
    simp only [rewriteStringsGo]
    rw [if_pos (by simp)]
    rw [scanLit_clean content post hc1 hc2]
    dsimp only
    have hp : post.length ≤ content.length + post.length + 1 := by omega
    have hpass := rewriteGo_pass (fun _ c => obfuscateStringsRepl c) post []
      (content.length + post.length + 1) hpost hp
    simp only [List.append_nil] at hpass
    rw [hpass, rewriteGo_nil]
    simp
  constructor
  · intro hskip
    show String.mk (rewriteStrings ['"'] (fun _ c => obfuscateStringsRepl c)
      (pre ++ '"' :: (content ++ '"' :: post))) = _
    rw [hcore]
    unfold obfuscateStringsRepl
    rw [if_pos hskip]
    simp
  · intro hskip
    show String.mk (rewriteStrings ['"'] (fun _ c => obfuscateStringsRepl c)
      (pre ++ '"' :: (content ++ '"' :: post))) = _
    rw [hcore]
    unfold obfuscateStringsRepl
    rw [if_neg (by simp [hskip])]

/-- Witness for the amended C7: the short literal "ab" is preserved
verbatim by the loader generator's obfuscateStrings. -/
theorem obfuscateStrings_skip_rules_witness :
    obfuscateStrings (String.mk ("x = ".data ++ '"' :: ("ab".data ++ '"' :: [])))
      = String.mk ("x = ".data ++ '"' :: ("ab".data ++ '"' :: [])) :=
  (obfuscateStrings_skip_rules "x = ".data "ab".data [] (by decide) (by decide)
    (by decide) (by decide)).1 (by decide)

/-! ## C2 -/

theorem hexDigitChar_ne_colon : ∀ m, ¬ hexDigitChar m = 58 := by
  intro m
  unfold hexDigitChar
  split <;> omega

theorem hexXor_ne_104 : ∀ a, a < 16 → ∀ b, b < 16 →
    ¬ Nat.xor (hexDigitChar a) (hexDigitChar b) = 104 := by decide

theorem toHexBytes_no_colon : ∀ (bs : List Nat), ∀ x ∈ toHexBytes bs, ¬ x = 58 := by
  intro bs
  induction bs with
  | nil => intro x hx; simp [toHexBytes] at hx
  | cons b rest ih =>
    intro x hx
    simp only [toHexBytes, List.mem_cons] at hx
    rcases hx with h | h | h
    · exact h ▸ hexDigitChar_ne_colon _
    · exact h ▸ hexDigitChar_ne_colon _
    · exact ih x h

theorem toHexBytes_ne_nil (bs : List Nat) (h : bs ≠ []) : toHexBytes bs ≠ [] := by
  cases bs with
  | nil => exact absurd rfl h
  | cons b rest => simp [toHexBytes]

theorem splitColonGo_zero_or_nil (f : Nat) : splitColonGo f [] = [] := by
  cases f <;> rfl

theorem takeWhile_clean_run (A R : List Nat) (h : ∀ a ∈ A, ¬ a = 58) :
    (A ++ 58 :: R).takeWhile (fun x => !(x == 58)) = A
    ∧ (A ++ 58 :: R).dropWhile (fun x => !(x == 58)) = 58 :: R := by
  induction A with
  | nil => simp [List.takeWhile_cons, List.dropWhile_cons]
  | cons a A' ih =>
    have ha : ¬ a = 58 := h a (by simp)
    have hA' : ∀ x ∈ A', ¬ x = 58 := fun x hx => h x (List.mem_cons_of_mem _ hx)
    obtain ⟨t, d⟩ := ih hA'
    constructor
    · rw [List.cons_append, List.takeWhile_cons, if_pos (by simp [ha]), t]
    · rw [List.cons_append, List.dropWhile_cons, if_pos (by simp [ha]), d]

theorem takeWhile_clean_all (A : List Nat) (h : ∀ a ∈ A, ¬ a = 58) :
    A.takeWhile (fun x => !(x == 58)) = A
    ∧ A.dropWhile (fun x => !(x == 58)) = [] := by
  induction A with
  | nil => simp
  | cons a A' ih =>
    have ha : ¬ a = 58 := h a (by simp)
    have hA' : ∀ x ∈ A', ¬ x = 58 := fun x hx => h x (List.mem_cons_of_mem _ hx)
    obtain ⟨t, d⟩ := ih hA'
    constructor
    · rw [List.takeWhile_cons, if_pos (by simp [ha]), t]
    · rw [List.dropWhile_cons, if_pos (by simp [ha]), d]

theorem splitColonGo_run (f : Nat) (A R : List Nat) (hA : A ≠ [])
    (hcl : ∀ a ∈ A, ¬ a = 58) :
    splitColonGo (f + 1) (A ++ 58 :: R) = A :: splitColonGo f (58 :: R) := by
  cases A with
  | nil => exact absurd rfl hA
  | cons a A' =>
    have ha : ¬ a = 58 := hcl a (by simp)
    have hA' : ∀ x ∈ A', ¬ x = 58 := fun x hx => hcl x (List.mem_cons_of_mem _ hx)
    obtain ⟨t, d⟩ := takeWhile_clean_run A' R hA'
    rw [List.cons_append, splitColonGo.eq_def]
    simp only []
    rw [if_neg (by simp [ha]), t, d]

theorem splitColonGo_sep (f : Nat) (R : List Nat) :
    splitColonGo (f + 1) (58 :: R) = splitColonGo f R := by
  rw [splitColonGo.eq_def]
  simp

theorem splitColonGo_last (f : Nat) (A : List Nat) (hA : A ≠ [])
    (hcl : ∀ a ∈ A, ¬ a = 58) :
    splitColonGo (f + 1) A = [A] := by
  cases A with
  | nil => exact absurd rfl hA
  | cons a A' =>
    have ha : ¬ a = 58 := hcl a (by simp)
    have hA' : ∀ x ∈ A', ¬ x = 58 := fun x hx => hcl x (List.mem_cons_of_mem _ hx)
    obtain ⟨t, d⟩ := takeWhile_clean_all A' hA'
    rw [splitColonGo.eq_def]
    simp only []
    rw [if_neg (by simp [ha]), t, d, splitColonGo_zero_or_nil]

theorem splitColon_three (K I C : List Nat) (hK : K ≠ []) (hI : I ≠ []) (hC : C ≠ [])
    (nK : ∀ a ∈ K, ¬ a = 58) (nI : ∀ a ∈ I, ¬ a = 58) (nC : ∀ a ∈ C, ¬ a = 58) :
    splitColon (K ++ 58 :: (I ++ 58 :: C)) = [K, I, C] := by
  have hKl : 1 ≤ K.length := List.length_pos.mpr hK
  have hIl : 1 ≤ I.length := List.length_pos.mpr hI
  have hCl : 1 ≤ C.length := List.length_pos.mpr hC
  have hn : (K ++ 58 :: (I ++ 58 :: C)).length = K.length + I.length + C.length + 2 := by
    simp [List.length_append]
    omega
  obtain ⟨m, hm⟩ : ∃ m, (K ++ 58 :: (I ++ 58 :: C)).length = m + 5 :=
    ⟨K.length + I.length + C.length - 3, by omega⟩
  unfold splitColon
  rw [hm]
  rw [show m + 5 = (m + 4) + 1 from rfl, splitColonGo_run _ _ _ hK nK]
  rw [show m + 4 = (m + 3) + 1 from rfl, splitColonGo_sep]
  rw [show m + 3 = (m + 2) + 1 from rfl, splitColonGo_run _ _ _ hI nI]
  rw [show m + 2 = (m + 1) + 1 from rfl, splitColonGo_sep]
  rw [splitColonGo_last _ _ hC nC]

/-- C2 (code bug, general refutation): whatever ciphertext the AES step
produced and whatever random key and IV were drawn, the decoder emitted
by generateDecryptFunction applied to encryptString's packaged value can
never return the plaintext "hi": every output byte is the XOR of two
lowercase-hex ASCII codes, and no such XOR equals 104 ('h'). -/
theorem emitted_decrypt_never_inverts (key iv ct : List Nat)
    (hK : key ≠ []) (hI : iv ≠ []) (hC : ct ≠ [])
    (hbK : ∀ b ∈ key, b < 256) (hbC : ∀ b ∈ ct, b < 256) :
    ¬ emittedDecrypt (encryptStringCombined key iv ct) = some (strBytes "hi") := by
  intro hcontra
  have nK := toHexBytes_no_colon key
  have nC := toHexBytes_no_colon ct
  have nI := toHexBytes_no_colon iv
  have hKne := toHexBytes_ne_nil key hK
  have hIne := toHexBytes_ne_nil iv hI
  have hCne := toHexBytes_ne_nil ct hC
  unfold emittedDecrypt encryptStringCombined at hcontra
  rw [splitColon_three _ _ _ hKne hIne hCne nK nI nC] at hcontra
  simp only [Option.some.injEq] at hcontra
  cases ct with
  | nil => exact absurd rfl hC
  | cons c0 ct' =>
    cases key with
    | nil => exact absurd rfl hK
    | cons k0 key' =>
      have hcd : c0 / 16 < 16 :=
        (Nat.div_lt_iff_lt_mul (by norm_num)).mpr (by have := hbC c0 (by simp); omega)
      have hkd : k0 / 16 < 16 :=
        (Nat.div_lt_iff_lt_mul (by norm_num)).mpr (by have := hbK k0 (by simp); omega)
      have hs : strBytes "hi" = [104, 105] := rfl
      rw [hs] at hcontra
      simp only [toHexBytes, xorWithKey, xorWithKeyGo, Nat.zero_mod, List.getD,
        List.cons.injEq] at hcontra
      exact hexXor_ne_104 _ hcd _ hkd (by simpa using hcontra.1)

/-- Witness for C2 at concrete one-byte key, IV and ciphertext. -/
theorem emitted_decrypt_never_inverts_witness :
    ¬ emittedDecrypt (encryptStringCombined [0] [0] [0]) = some (strBytes "hi") :=
  emitted_decrypt_never_inverts [0] [0] [0] (by decide) (by decide) (by decide)
    (by decide) (by decide)

end EnigmaCode
